import Mathlib

/-!
Verification of the orchestration layer of the `ai-social-platform`
repository: a shallow embedding of the LLM gateway (`app/services/openai_service.py`),
the platform generators (`app/agents/platform_agents/`), the fan-out
coordinator (`app/agents/post_creator.py`), the dialog router's history
read (`app/agents/super_agent.py`) and the authorization check
(`app/telegram/bot.py`, `app/config.py`), together with theorems settling
the frozen specification claims.

Python strings are modelled by Lean `String`, Python `None`-able values by
`Option`, raised exceptions by `Except`, and the external OpenAI call by an
explicit argument describing its outcome.  Python float temperatures are
modelled by `ℚ` (the only values that occur are exact decimals), so that
the truthiness of `0.0` in `a or b` can be stated precisely.
-/

/-- Role/content pair of a chat message (`MessageDict` in `app/types.py`). -/
structure ChatMessage where
  role : String
  content : String
deriving DecidableEq, Repr

/-- The configuration carried by `OpenAIService.__init__`:
`settings.OPENAI_MODEL`, `settings.OPENAI_TEMPERATURE`, `settings.OPENAI_MAX_TOKENS`. -/
structure ServiceConfig where
  model : String
  temperature : ℚ
  maxTokens : ℕ
deriving DecidableEq, Repr

/-- The shipped defaults of `app/config.py`:
`OPENAI_MODEL = "gpt-4-turbo-preview"`, `OPENAI_TEMPERATURE = 0.7`,
`OPENAI_MAX_TOKENS = 800`. -/
def defaultConfig : ServiceConfig :=
  { model := "gpt-4-turbo-preview", temperature := 7/10, maxTokens := 800 }

/-- Python `a or b` on an optional float `a` with default `b`:
`None` and `0.0` are falsy, every other float is truthy.  This models the
expression `temperature or self.temperature` in `OpenAIService.complete`. -/
def pyOrQ (x : Option ℚ) (d : ℚ) : ℚ :=
  match x with
  | none => d
  | some v => if v = 0 then d else v

/-- Python `a or b` on an optional int `a` with default `b` (models
`max_tokens or self.max_tokens` in `OpenAIService.complete`). -/
def pyOrN (x : Option ℕ) (d : ℕ) : ℕ :=
  match x with
  | none => d
  | some v => if v = 0 then d else v

/-- The request `OpenAIService.complete` hands to
`client.chat.completions.create`. -/
structure ChatRequest where
  model : String
  messages : List ChatMessage
  temperature : ℚ
  maxTokens : ℕ
deriving DecidableEq, Repr

/-- The request built by `OpenAIService.complete` from its arguments
(`app/services/openai_service.py`, lines 46-51). -/
def completeRequest (cfg : ServiceConfig) (messages : List ChatMessage)
    (temperature : Option ℚ) (maxTokens : Option ℕ) : ChatRequest :=
  { model := cfg.model
    messages := messages
    temperature := pyOrQ temperature cfg.temperature
    maxTokens := pyOrN maxTokens cfg.maxTokens }

/-- The two failure modes of `OpenAIService.complete`: the remote call
raised (`OpenAIError` or any other exception), or the returned message
content was `None` (`ValueError("OpenAI returned empty response")`). -/
inductive GenError where
  | apiError
  | emptyResponse
deriving DecidableEq, Repr

/-- The characters kept by Python `str.strip()` with no argument:
surrounding whitespace is removed from both ends. -/
def stripChars (cs : List Char) : List Char :=
  ((cs.dropWhile Char.isWhitespace).reverse.dropWhile Char.isWhitespace).reverse

/-- Python `s.strip()` (for the whitespace characters this program
meets), as a kernel-computable function on the character list. -/
def pyStrip (s : String) : String :=
  String.mk (stripChars s.data)

/-- Python `s.lower()` (for the ASCII strings this program meets). -/
def pyLower (s : String) : String :=
  String.mk (s.data.map Char.toLower)

/-- Split a character list at each `','` (auxiliary to Python
`s.split(",")`); the accumulator carries the current field reversed. -/
def splitCommaAux (acc : List Char) : List Char → List (List Char)
  | [] => [acc.reverse]
  | c :: cs =>
    if c = ',' then acc.reverse :: splitCommaAux [] cs
    else splitCommaAux (c :: acc) cs

/-- Python `s.split(",")`: the comma-separated fields of `s`, with
`"".split(",") = [""]`. -/
def pySplitComma (s : String) : List String :=
  (splitCommaAux [] s.data).map String.mk

/-- Outcome of `OpenAIService.complete` as a function of the provider's
outcome: `Except.error ()` models a raising remote call, `Except.ok none`
a reply whose `message.content` is `None`, and `Except.ok (some c)` a
reply with content `c`.  The code re-raises remote errors, raises on
`None` content, and otherwise returns `content.strip()`
(`app/services/openai_service.py`, lines 53-64). -/
def completeResult (provider : Except Unit (Option String)) : Except GenError String :=
  match provider with
  | .error _ => .error .apiError
  | .ok none => .error .emptyResponse
  | .ok (some c) => .ok (pyStrip c)

/-- Python `l[-n:]`: the last `min n (length l)` elements of `l`. -/
def lastN (n : ℕ) (l : List α) : List α :=
  l.drop (l.length - n)

/-- The X generator's character cap (`XAgent.MAX_LENGTH`). -/
def xMaxLength : ℕ := 280

/-- The post-processing of `XAgent.create_post`
(`app/agents/platform_agents/x_agent.py`, lines 70-75): if the completion
exceeds `MAX_LENGTH` characters it is replaced by
`post[:MAX_LENGTH - 3] + "..."`. -/
def xPostProcess (post : String) : String :=
  if post.length > xMaxLength then String.mk (post.data.take (xMaxLength - 3)) ++ "..."
  else post

/-- `XAgent.create_post` as a function of the outcome of its
`OpenAIService.complete` call: a gateway failure is re-raised unchanged,
a success is post-processed by the length cap. -/
def xCreatePost (r : Except GenError String) : Except GenError String :=
  match r with
  | .error e => .error e
  | .ok post => .ok (xPostProcess post)

/-- The substring `SchoolAgent.create_post` tests for
(`"Love an automation" not in post`). -/
def signatureMarker : String := "Love an automation"

/-- The signature `SchoolAgent.create_post` appends when the marker is
absent. -/
def schoolSignature : String := "\n\nLove an automation,\nJack"

/-- The post-processing of `SchoolAgent.create_post`
(`app/agents/platform_agents/school_agent.py`, lines 47-49): append the
signature when the marker substring is absent, otherwise return the post
unchanged. -/
def schoolPostProcess (post : String) : String :=
  if signatureMarker.data <:+: post.data then post
  else post ++ schoolSignature

/-- The fixed classifier system prompt of `OpenAIService.analyze_intent`. -/
def intentSystemPrompt : String :=
  "You are an intent classifier for an AI social media system.\n\nAnalyze the user's message and classify it into one of these intents:\n- create_post: User wants to create social media content\n- edit_image: User wants to edit an image (but no image uploaded yet)\n- general: General conversation or unclear intent\n\nRespond with ONLY the intent name, nothing else."

/-- The message list `analyze_intent` sends: the fixed system prompt, the
last 3 history turns (`history[-3:]`), then the live user message
(`app/services/openai_service.py`, lines 90-94). -/
def analyzeIntentMessages (text : String) (history : List ChatMessage) : List ChatMessage :=
  { role := "system", content := intentSystemPrompt } ::
    (lastN 3 history ++ [{ role := "user", content := text }])

/-- The request `analyze_intent` hands to `complete`: its message list
with `temperature=0.0` and `max_tokens=20`
(`app/services/openai_service.py`, line 97). -/
def analyzeIntentRequest (cfg : ServiceConfig) (text : String)
    (history : List ChatMessage) : ChatRequest :=
  completeRequest cfg (analyzeIntentMessages text history) (some 0) (some 20)

/-- The token set `analyze_intent` accepts. -/
def validIntents : List String := ["create_post", "edit_image", "general"]

/-- The result of `analyze_intent` as a function of the outcome of its
`complete` call: lower-case and strip the reply, keep it if it is a valid
intent, otherwise (invalid token or any raised exception) return
`"general"` (`app/services/openai_service.py`, lines 96-108). -/
def analyzeIntentResult (r : Except GenError String) : String :=
  match r with
  | .error _ => "general"
  | .ok s =>
    let intent := pyStrip (pyLower s)
    if validIntents.contains intent then intent else "general"

/-- The token set `analyze_image_intent` accepts. -/
def validImageIntents : List String := ["edit_only", "post_only", "both"]

/-- The result of `analyze_image_intent` as a function of the outcome of
its `complete` call: same parsing as `analyze_intent`, failing open to
`"edit_only"` (`app/services/openai_service.py`, lines 137-149). -/
def analyzeImageIntentResult (r : Except GenError String) : String :=
  match r with
  | .error _ => "edit_only"
  | .ok s =>
    let intent := pyStrip (pyLower s)
    if validImageIntents.contains intent then intent else "edit_only"

/-- The token list `detect_platforms` validates against
(`valid_platforms` in `app/services/openai_service.py`, line 187). -/
def validPlatforms : List String :=
  ["x", "twitter", "linkedin", "instagram", "youtube", "school"]

/-- The five canonical platform tags (`Platform` in `app/types.py`);
`detect_platforms` only ever returns these. -/
def canonicalPlatforms : List String :=
  ["x", "linkedin", "instagram", "youtube", "school"]

/-- The parsing step of `OpenAIService.detect_platforms`
(lines 184-191): lower-case and strip the reply; the literal `"none"`
yields the empty list; otherwise split on `","`, strip each token, keep
the tokens appearing in `valid_platforms`, and replace `"twitter"` by
`"x"`. -/
def parsePlatforms (reply : String) : List String :=
  let result := pyStrip (pyLower reply)
  if result = "none" then []
  else
    let platforms := (pySplitComma result).map pyStrip
    (platforms.filter (fun p => validPlatforms.contains p)).map
      (fun p => if p = "twitter" then "x" else p)

/-- `OpenAIService.detect_platforms` as a function of the outcome of its
`complete` call: any raised exception yields the empty list
(lines 193-195), a reply is parsed by `parsePlatforms`. -/
def detect_platforms (r : Except GenError String) : List String :=
  match r with
  | .error _ => []
  | .ok s => parsePlatforms s

/-- The comma-separated tokens of a classifier reply, after the reply is
lower-cased and stripped: each token stripped of surrounding whitespace. -/
def replyTokens (reply : String) : List String :=
  (pySplitComma (pyStrip (pyLower reply))).map pyStrip

/-- The keys of the `PostCreatorAgent.agents` dictionary
(`app/agents/post_creator.py`, lines 31-38). -/
def recognizedKeys : List String :=
  ["x", "twitter", "linkedin", "instagram", "youtube", "school"]

/-- One step of Python `str.title()`: the boolean carries whether the
previous character was alphabetic (a cased character); an alphabetic
character starting a word is upper-cased, one inside a word is
lower-cased, other characters pass through. -/
def titleGo : Bool → List Char → List Char
  | _, [] => []
  | prevAlpha, c :: cs =>
    if c.isAlpha then
      (if prevAlpha then c.toLower else c.toUpper) :: titleGo true cs
    else
      c :: titleGo false cs

/-- Python `str.title()` restricted to the alphabetic/ASCII strings this
program applies it to. -/
def pythonTitle (s : String) : String :=
  String.mk (titleGo false s.data)

/-- The display name of a detected platform
(`app/agents/post_creator.py`, line 75): `"X"` for `"x"`/`"twitter"`,
otherwise `platform.title()`. -/
def displayName (p : String) : String :=
  if pyLower p = "x" ∨ pyLower p = "twitter" then "X" else pythonTitle p

/-- One response block of `PostCreatorAgent.create_posts`
(lines 84-91): an error marker when the gathered result is an exception,
otherwise the generated content under the platform label. -/
def renderBlock (name : String) (result : Except GenError String) : String :=
  match result with
  | .error _ => "\n❌ **" ++ name ++ "**: Error generating post\n"
  | .ok content => "\n📱 **" ++ name ++ "**\n" ++ content ++ "\n"

/-- The header block of the fan-out response
(`response_parts = ["✨ **Generated Posts**\n"]`). -/
def postsHeader : String := "✨ **Generated Posts**\n"

/-- The static response of `PostCreatorAgent._no_platform_response`. -/
def noPlatformResponse : String :=
  "📝 I can create posts for multiple platforms!\n\nWhich platform(s) would you like?\n• X (Twitter)\n• LinkedIn\n• Instagram\n• YouTube\n• School\n\nExample: 'Create a LinkedIn post about AI automation'"

/-- The selection loop of `create_posts` (lines 70-77): walk the detected
platforms in order; for each one whose lower-casing is a key of the agent
dictionary, append its display name to `platform_names` and its
generator's outcome (one `asyncio.gather` slot) to the task results;
unknown names are skipped.  `gen` gives the outcome of the agent stored
under a given dictionary key. -/
def gatherLoop (gen : String → Except GenError String)
    (detected : List String) : List String × List (Except GenError String) :=
  detected.foldl
    (fun acc p =>
      if recognizedKeys.contains (pyLower p) then
        (acc.1 ++ [displayName p], acc.2 ++ [gen (pyLower p)])
      else acc)
    ([], [])

/-- The recognized entries of a detected-platform list, in detection
order (the platforms for which the selection loop finds an agent). -/
def selectedPlatforms (detected : List String) : List String :=
  detected.filter (fun p => recognizedKeys.contains (pyLower p))

/-- `PostCreatorAgent.create_posts` as a function of the detected
platform list and of each agent's generation outcome (lines 61-92): an
empty detection yields the static platform-choice prompt; otherwise the
response is the header followed by one rendered block per gathered
result, joined by `"\n"` (`"\n".join(response_parts)`). -/
def create_posts (detected : List String)
    (gen : String → Except GenError String) : String :=
  if detected.isEmpty then noPlatformResponse
  else
    let gathered := gatherLoop gen detected
    String.intercalate "\n" (postsHeader :: List.zipWith renderBlock gathered.1 gathered.2)

/-- Modelled from the spec: `app/models/database.py` is not in the source
tree (only its importers are).  Section 6 of the spec requires a table
`messages(id, conversation_id, role, content, type, created_at)` that is
append-only and "accessed via ordered range reads and single-row
appends"; a row carries the columns the history read uses. -/
structure MessageRow where
  conversation_id : ℕ
  role : String
  content : String
  created_at : ℕ
deriving DecidableEq, Repr

/-- The shipped default of `settings.MAX_CONVERSATION_HISTORY`
(`app/config.py`, line 63: default 10). -/
def MAX_CONVERSATION_HISTORY : ℕ := 10

/-- Insert a row into a list sorted by descending `created_at`, keeping
it sorted (auxiliary to the ordered read). -/
def insertDesc (m : MessageRow) : List MessageRow → List MessageRow
  | [] => [m]
  | x :: xs => if x.created_at ≤ m.created_at then m :: x :: xs else x :: insertDesc m xs

/-- Modelled from the spec: the `ORDER BY created_at DESC` of the
relational store (`app/models/database.py` is absent), realised as an
insertion sort by descending `created_at`. -/
def sortByCreatedDesc : List MessageRow → List MessageRow
  | [] => []
  | x :: xs => insertDesc x (sortByCreatedDesc xs)

/-- The query chain of `SuperAgent._get_conversation_history`
(`app/agents/super_agent.py`, lines 120-127): filter the table to the
conversation, order by `created_at` descending, take at most `limit`
rows. -/
def queryHistory (table : List MessageRow) (cid : ℕ) (limit : ℕ) : List MessageRow :=
  (sortByCreatedDesc (table.filter (fun m => m.conversation_id == cid))).take limit

/-- The `{"role": msg.role, "content": msg.content}` projection of
`_get_conversation_history`. -/
def toChatMessage (m : MessageRow) : ChatMessage :=
  { role := m.role, content := m.content }

/-- `SuperAgent._get_conversation_history` (lines 101-136): a `None`
limit defaults to `settings.MAX_CONVERSATION_HISTORY`; the descending
query result is reversed into chronological order and projected to
role/content pairs. -/
def getConversationHistory (table : List MessageRow) (cid : ℕ)
    (limit : Option ℕ) : List ChatMessage :=
  let lim := limit.getD MAX_CONVERSATION_HISTORY
  ((queryHistory table cid lim).reverse).map toChatMessage

/-- `Settings.is_user_whitelist_enabled` (`app/config.py`): true exactly
when the parsed allow-list is non-empty. -/
def isUserWhitelistEnabled (allowed : List ℤ) : Bool :=
  allowed.length > 0

/-- `TelegramBot._check_authorization` (`app/telegram/bot.py`, lines
74-78): accept everyone when the whitelist is disabled, otherwise accept
exactly the ids in the allow-list. -/
def checkAuthorization (allowed : List ℤ) (userId : ℤ) : Bool :=
  if !(isUserWhitelistEnabled allowed) then true
  else allowed.contains userId

/-- `Settings.allowed_user_ids` (`app/config.py`, lines 73-91): a blank
setting parses to the empty list; otherwise split on `","`, strip each
token, drop empty tokens, and parse each remaining token as an integer
(`none` models the `ValueError` raised on a malformed token). -/
def parseAllowedUserIds (raw : String) : Option (List ℤ) :=
  if pyStrip raw = "" then some []
  else
    (((pySplitComma raw).map pyStrip).filter (fun t => t ≠ "")).mapM
      (fun t => t.toInt?)

/-- C3: `OpenAIService.complete` returns the completion text with
surrounding whitespace trimmed, and fails exactly when the remote call
errors or the provider returns no content; in particular it never returns
a value on empty provider content. -/
theorem complete_trim_and_errors (r : Except Unit (Option String)) :
    (∀ c, r = .ok (some c) → completeResult r = .ok (pyStrip c)) ∧
    ((completeResult r).isOk = false ↔ r = .error () ∨ r = .ok none) := by
  constructor
  · intro c hc; subst hc; rfl
  · cases r with
    | error e => cases e; simp [completeResult, Except.isOk, Except.toBool]
    | ok o => cases o <;> simp [completeResult, Except.isOk, Except.toBool]

theorem complete_trim_and_errors_witness :
    completeResult (Except.ok (some " hi ")) = Except.ok (pyStrip " hi ") ∧
    (completeResult (Except.ok (none : Option String))).isOk = false :=
  ⟨(complete_trim_and_errors (Except.ok (some " hi "))).1 " hi " rfl,
   ((complete_trim_and_errors (Except.ok none)).2).mpr (Or.inr rfl)⟩

/-- C2: for every gateway completion outcome, the post returned by
`XAgent.create_post` has length at most 280 characters; when the
completion exceeds 280 characters the result is the truncation to 277
characters with `"..."` appended. -/
theorem xAgent_length_limit (r : Except GenError String) (post : String)
    (h : r = .ok post) :
    xCreatePost r = .ok (xPostProcess post) ∧
    (xPostProcess post).length ≤ xMaxLength ∧
    (post.length > xMaxLength →
      xPostProcess post = String.mk (post.data.take (xMaxLength - 3)) ++ "...") := by
  subst h
  refine ⟨rfl, ?_, ?_⟩
  · unfold xPostProcess
    split
    · rw [String.length_append, String.length_mk]
      have h1 : (post.data.take (xMaxLength - 3)).length ≤ xMaxLength - 3 := by
        rw [List.length_take]; exact min_le_left _ _
      have h2 : ("..." : String).length = 3 := rfl
      simp [xMaxLength] at h1 ⊢
      omega
    · next hn => simp [xMaxLength] at hn ⊢; omega
  · intro hl
    unfold xPostProcess
    rw [if_pos hl]

/-- A concrete 281-character completion, exceeding the X cap. -/
def longInput : String := String.mk (List.replicate 281 'a')

theorem xAgent_length_limit_witness :
    (xPostProcess longInput).length ≤ xMaxLength ∧
    xPostProcess longInput = String.mk (longInput.data.take (xMaxLength - 3)) ++ "..." :=
  ⟨(xAgent_length_limit (Except.ok longInput) longInput rfl).2.1,
   (xAgent_length_limit (Except.ok longInput) longInput rfl).2.2 (by
      rw [longInput, String.length_mk, List.length_replicate, xMaxLength]; omega)⟩

/-- C7: classification never aborts the pipeline: on a raised completion
or an invalid token, `analyze_intent` returns `"general"` and
`analyze_image_intent` returns `"edit_only"`; both are total functions
whose results always lie in their valid token sets. -/
theorem classifiers_fail_open (r : Except GenError String) :
    (∀ e, r = .error e →
      analyzeIntentResult r = "general" ∧ analyzeImageIntentResult r = "edit_only") ∧
    (∀ s, r = .ok s → pyStrip (pyLower s) ∉ validIntents →
      analyzeIntentResult r = "general") ∧
    (∀ s, r = .ok s → pyStrip (pyLower s) ∉ validImageIntents →
      analyzeImageIntentResult r = "edit_only") ∧
    analyzeIntentResult r ∈ validIntents ∧
    analyzeImageIntentResult r ∈ validImageIntents := by
  refine ⟨?_, ?_, ?_, ?_, ?_⟩
  · rintro e rfl; exact ⟨rfl, rfl⟩
  · rintro s rfl h; simp [analyzeIntentResult, h]
  · rintro s rfl h; simp [analyzeImageIntentResult, h]
  · cases r with
    | error e => cases e <;> decide
    | ok s =>
      by_cases h : pyStrip (pyLower s) ∈ validIntents
      · simp [analyzeIntentResult, h]
      · simp [analyzeIntentResult, h]
        decide
  · cases r with
    | error e => cases e <;> decide
    | ok s =>
      by_cases h : pyStrip (pyLower s) ∈ validImageIntents
      · simp [analyzeImageIntentResult, h]
      · simp [analyzeImageIntentResult, h]
        decide

theorem classifiers_fail_open_witness :
    (analyzeIntentResult (Except.error GenError.apiError) = "general" ∧
      analyzeImageIntentResult (Except.error GenError.apiError) = "edit_only") ∧
    analyzeIntentResult (Except.ok "banana") = "general" :=
  ⟨(classifiers_fail_open (Except.error GenError.apiError)).1 GenError.apiError rfl,
   (classifiers_fail_open (Except.ok "banana")).2.1 "banana" rfl (by decide)⟩

/-- C10: with an empty allow-list `_check_authorization` accepts every
user id; with a non-empty allow-list it accepts exactly the listed ids;
and a blank `TELEGRAM_ALLOWED_USER_IDS` parses to the empty allow-list. -/
theorem authorization_allow_list (allowed : List ℤ) (userId : ℤ) :
    (allowed = [] → checkAuthorization allowed userId = true) ∧
    (allowed ≠ [] → (checkAuthorization allowed userId = true ↔ userId ∈ allowed)) ∧
    parseAllowedUserIds "" = some [] := by
  refine ⟨?_, ?_, rfl⟩
  · rintro rfl; rfl
  · intro h
    have hlen : 0 < allowed.length := List.length_pos.mpr h
    simp [checkAuthorization, isUserWhitelistEnabled, hlen]

theorem authorization_allow_list_witness :
    checkAuthorization [] 42 = true ∧
    (checkAuthorization [7] 7 = true ↔ (7 : ℤ) ∈ [(7 : ℤ)]) :=
  ⟨(authorization_allow_list [] 42).1 rfl,
   (authorization_allow_list [7] 7).2.1 (by decide)⟩

/-- C4: `analyze_intent` sends the fixed classifier system prompt, the
last 3 history turns and the live user message, and passes
`temperature=0.0` to `complete`; but Python evaluates
`temperature or self.temperature` and `0.0` is falsy, so the request sent
to the model carries the configured default temperature, not 0 (with the
shipped default the request goes out at temperature 0.7).  This refutes
the claim's temperature clause: the code contradicts `complete`'s own
docstring ("overrides default"). -/
theorem analyzeIntent_request_temperature (cfg : ServiceConfig) (text : String)
    (history : List ChatMessage) :
    (analyzeIntentRequest cfg text history).messages =
      { role := "system", content := intentSystemPrompt } ::
        (lastN 3 history ++ [{ role := "user", content := text }]) ∧
    (analyzeIntentRequest cfg text history).temperature = cfg.temperature ∧
    (analyzeIntentRequest defaultConfig text history).temperature = 7/10 := by
  refine ⟨rfl, ?_, ?_⟩
  · simp [analyzeIntentRequest, completeRequest, pyOrQ]
  · simp [analyzeIntentRequest, completeRequest, pyOrQ, defaultConfig]

/-- C9: the School generator's post-processing appends the fixed
signature exactly when the marker substring is absent, returns the post
unchanged when it is present, and is therefore idempotent. -/
theorem school_signature_idempotent (post : String) :
    (¬ signatureMarker.data <:+: post.data →
      schoolPostProcess post = post ++ schoolSignature) ∧
    (signatureMarker.data <:+: post.data → schoolPostProcess post = post) ∧
    schoolPostProcess (schoolPostProcess post) = schoolPostProcess post := by
  refine ⟨?_, ?_, ?_⟩
  · intro h; simp [schoolPostProcess, h]
  · intro h; simp [schoolPostProcess, h]
  · by_cases h : signatureMarker.data <:+: post.data
    · simp [schoolPostProcess, h]
    · have h1 : schoolPostProcess post = post ++ schoolSignature := by
        simp [schoolPostProcess, h]
      have h2 : signatureMarker.data <:+: (post ++ schoolSignature).data := by
        rw [String.data_append]
        have hsig : signatureMarker.data <:+: schoolSignature.data := by decide
        exact hsig.trans (List.suffix_append post.data schoolSignature.data).isInfix
      rw [h1]
      unfold schoolPostProcess
      rw [if_pos h2]

theorem school_signature_idempotent_witness :
    schoolPostProcess "Hello" = "Hello" ++ schoolSignature ∧
    schoolPostProcess "Love an automation, Jack" = "Love an automation, Jack" :=
  ⟨(school_signature_idempotent "Hello").1 (by decide),
   (school_signature_idempotent "Love an automation, Jack").2.1 (by decide)⟩

/-- Filtering and then mapping a list is the same as one `filterMap`
pass (the shape of `detect_platforms`' token pipeline). -/
theorem map_filter_eq_filterMap (q : α → Bool) (f : α → β) (l : List α) :
    (l.filter q).map f = l.filterMap (fun x => if q x then some (f x) else none) := by
  induction l with
  | nil => rfl
  | cons x xs ih =>
    by_cases h : q x
    · simp [List.filter_cons, List.filterMap_cons, h, ih]
    · simp [List.filter_cons, List.filterMap_cons, h, ih]

/-- C6: `detect_platforms` yields the empty collection on a failed
completion and on the literal reply `"none"`; otherwise it drops every
comma-separated token outside the valid set and maps `"twitter"` to
`"x"`, keeping all other valid tokens unchanged; its output only ever
contains canonical platform tags. -/
theorem detect_platforms_parse (r : Except GenError String) :
    (∀ e, r = .error e → detect_platforms r = []) ∧
    (∀ s, r = .ok s → pyStrip (pyLower s) = "none" → detect_platforms r = []) ∧
    (∀ s, r = .ok s → pyStrip (pyLower s) ≠ "none" →
      detect_platforms r =
        ((pySplitComma (pyStrip (pyLower s))).map pyStrip).filterMap
          (fun t => if validPlatforms.contains t then
            some (if t = "twitter" then "x" else t) else none)) ∧
    (∀ p ∈ detect_platforms r, p ∈ canonicalPlatforms ∧ p ≠ "twitter") := by
  refine ⟨?_, ?_, ?_, ?_⟩
  · rintro e rfl; rfl
  · rintro s rfl hnone
    simp [detect_platforms, parsePlatforms, hnone]
  · rintro s rfl hnone
    simp only [detect_platforms, parsePlatforms, if_neg hnone]
    exact map_filter_eq_filterMap _ _ _
  · intro p hp
    match r with
    | .error e => simp [detect_platforms] at hp
    | .ok s =>
      simp only [detect_platforms, parsePlatforms] at hp
      by_cases hnone : pyStrip (pyLower s) = "none"
      · simp [hnone] at hp
      · rw [if_neg hnone] at hp
        obtain ⟨t, ht, rfl⟩ := List.mem_map.mp hp
        have htv : validPlatforms.contains t = true := (List.mem_filter.mp ht).2
        have hvalid : t ∈ validPlatforms := by simpa using htv
        have : ∀ u ∈ validPlatforms,
            (if u = "twitter" then "x" else u) ∈ canonicalPlatforms ∧
            (if u = "twitter" then "x" else u) ≠ "twitter" := by decide
        exact this t hvalid

theorem detect_platforms_parse_witness :
    detect_platforms (Except.error GenError.apiError) = [] ∧
    detect_platforms (Except.ok "none") = [] ∧
    detect_platforms (Except.ok "linkedin, twitter, foo") =
      ((pySplitComma (pyStrip (pyLower "linkedin, twitter, foo"))).map pyStrip).filterMap
        (fun t => if validPlatforms.contains t then
          some (if t = "twitter" then "x" else t) else none) :=
  ⟨(detect_platforms_parse (Except.error GenError.apiError)).1 GenError.apiError rfl,
   (detect_platforms_parse (Except.ok "none")).2.1 "none" rfl (by decide),
   (detect_platforms_parse (Except.ok "linkedin, twitter, foo")).2.2.1
     "linkedin, twitter, foo" rfl (by decide)⟩

/-- The selection loop of `create_posts`, run from any accumulator,
appends one display name and one gathered result per recognized entry of
the detected list, in detection order. -/
theorem gatherLoop_foldl (gen : String → Except GenError String) :
    ∀ (l : List String) (acc : List String × List (Except GenError String)),
      List.foldl
        (fun acc p =>
          if recognizedKeys.contains (pyLower p) then
            (acc.1 ++ [displayName p], acc.2 ++ [gen (pyLower p)])
          else acc)
        acc l =
      (acc.1 ++ (selectedPlatforms l).map displayName,
       acc.2 ++ (selectedPlatforms l).map (fun p => gen (pyLower p))) := by
  intro l
  induction l with
  | nil => intro acc; simp [selectedPlatforms]
  | cons p rest ih =>
    intro acc
    by_cases h : recognizedKeys.contains (pyLower p)
    · simp only [List.foldl_cons, h, if_pos, ih, selectedPlatforms, List.filter_cons,
        List.map_cons, List.append_assoc, List.cons_append, List.nil_append]
    · simp only [List.foldl_cons, h, if_neg, ih, selectedPlatforms, List.filter_cons]
      simp [h, selectedPlatforms]

/-- The gathered name and result lists are the per-occurrence maps over
the recognized detected entries. -/
theorem gatherLoop_eq (gen : String → Except GenError String) (detected : List String) :
    gatherLoop gen detected =
      ((selectedPlatforms detected).map displayName,
       (selectedPlatforms detected).map (fun p => gen (pyLower p))) := by
  unfold gatherLoop
  rw [gatherLoop_foldl gen detected ([], [])]
  simp

/-- Zipping two maps over the same list is a single map. -/
theorem zipWith_map_same (f : β → γ → δ) (g : α → β) (h : α → γ) (l : List α) :
    List.zipWith f (l.map g) (l.map h) = l.map (fun x => f (g x) (h x)) := by
  induction l with
  | nil => rfl
  | cons x xs ih => simp [ih]

/-- Every canonical platform tag is its own lower-casing, has an agent,
and the display names of distinct canonical tags differ. -/
theorem canonical_facts :
    (∀ p ∈ canonicalPlatforms, pyLower p = p ∧ recognizedKeys.contains p = true) ∧
    (∀ x ∈ canonicalPlatforms, ∀ y ∈ canonicalPlatforms,
      displayName x = displayName y → x = y) := by
  constructor
  · decide
  · decide

/-- C1: for a non-empty detected list of canonical platforms (what
`detect_platforms` produces), `create_posts` answers with the header
followed by exactly one labeled block per detected platform, in detection
order; each block depends only on that platform's own generation outcome,
rendering its content on success and the error marker on failure, and
each platform label occurs exactly once. -/
theorem create_posts_block_per_platform (detected : List String)
    (gen : String → Except GenError String)
    (hne : detected ≠ []) (hcanon : ∀ p ∈ detected, p ∈ canonicalPlatforms)
    (hnodup : detected.Nodup) :
    create_posts detected gen =
      String.intercalate "\n" (postsHeader ::
        detected.map (fun p => renderBlock (displayName p) (gen p))) ∧
    (∀ p ∈ detected,
      (detected.map (fun q => displayName q)).count (displayName p) = 1) ∧
    (∀ p ∈ detected,
      (∀ c, gen p = .ok c → renderBlock (displayName p) (gen p) =
        "\n📱 **" ++ displayName p ++ "**\n" ++ c ++ "\n") ∧
      (∀ e, gen p = .error e → renderBlock (displayName p) (gen p) =
        "\n❌ **" ++ displayName p ++ "**: Error generating post\n")) := by
  have hsel : selectedPlatforms detected = detected := by
    unfold selectedPlatforms
    rw [List.filter_eq_self]
    intro p hp
    have h1 := (canonical_facts.1 p (hcanon p hp)).1
    have h2 := (canonical_facts.1 p (hcanon p hp)).2
    rw [h1]; exact h2
  have hlow : ∀ p ∈ detected, pyLower p = p := fun p hp =>
    (canonical_facts.1 p (hcanon p hp)).1
  refine ⟨?_, ?_, ?_⟩
  · unfold create_posts
    rw [if_neg (fun h => hne (List.isEmpty_iff.mp h))]
    simp only [gatherLoop_eq, hsel]
    rw [zipWith_map_same]
    congr 2
    exact List.map_congr_left (fun p hp => by rw [hlow p hp])
  · intro p hp
    have hinj : ∀ x ∈ detected, ∀ y ∈ detected, displayName x = displayName y → x = y :=
      fun x hx y hy => canonical_facts.2 x (hcanon x hx) y (hcanon y hy)
    have hnd : (detected.map (fun q => displayName q)).Nodup :=
      List.Nodup.map_on hinj hnodup
    have hmem : displayName p ∈ detected.map (fun q => displayName q) :=
      List.mem_map_of_mem _ hp
    have hle := List.nodup_iff_count_le_one.mp hnd (displayName p)
    have hpos : 0 < (detected.map (fun q => displayName q)).count (displayName p) :=
      List.count_pos_iff.mpr hmem
    omega
  · intro p _
    constructor
    · intro c hc; rw [hc]; rfl
    · intro e he; rw [he]; rfl

/-- A concrete fan-out outcome: the X generation fails, the LinkedIn
generation succeeds. -/
def mixedGen : String → Except GenError String :=
  fun p => if p = "x" then Except.error GenError.apiError else Except.ok "LinkedIn post"

theorem create_posts_block_per_platform_witness :
    create_posts ["x", "linkedin"] mixedGen =
      String.intercalate "\n" (postsHeader ::
        ["x", "linkedin"].map (fun p => renderBlock (displayName p) (mixedGen p))) ∧
    (∀ p ∈ ["x", "linkedin"],
      ((["x", "linkedin"] : List String).map (fun q => displayName q)).count (displayName p) = 1) :=
  ⟨(create_posts_block_per_platform ["x", "linkedin"] mixedGen (by decide)
      (by decide) (by decide)).1,
   (create_posts_block_per_platform ["x", "linkedin"] mixedGen (by decide)
      (by decide) (by decide)).2.1⟩

/-- C5 counterexample: detection of the classifier reply `"x,twitter"`
yields `["x", "x"]` (the alias is normalized but not deduplicated), and
the fan-out over that list launches two generator invocations and emits
two blocks labeled `X` — not one. -/
theorem create_posts_duplicate_counterexample :
    parsePlatforms "x,twitter" = ["x", "x"] ∧
    (gatherLoop (fun _ => Except.ok "post") ["x", "x"]).2.length = 2 ∧
    (gatherLoop (fun _ => Except.ok "post") ["x", "x"]).1 = ["X", "X"] := by
  refine ⟨by decide, by decide, by decide⟩

/-- C5 (amended): the coordinator performs no deduplication: each
occurrence of a recognized platform in the detected list produces its own
generator invocation and its own labeled block, so a platform detected
`n` times is generated and reported `n` times. -/
theorem create_posts_no_dedup (detected : List String)
    (gen : String → Except GenError String) :
    (gatherLoop gen detected).1 = (selectedPlatforms detected).map displayName ∧
    (gatherLoop gen detected).2 =
      (selectedPlatforms detected).map (fun p => gen (pyLower p)) ∧
    ∀ p : String, (selectedPlatforms detected).count p =
      if recognizedKeys.contains (pyLower p) then detected.count p else 0 := by
  refine ⟨?_, ?_, ?_⟩
  · rw [gatherLoop_eq]
  · rw [gatherLoop_eq]
  · intro p
    by_cases h : recognizedKeys.contains (pyLower p)
    · rw [if_pos h]
      unfold selectedPlatforms
      exact List.count_filter h
    · rw [if_neg h]
      unfold selectedPlatforms
      rw [List.count_eq_zero]
      intro hmem
      exact h (List.mem_filter.mp hmem).2

/-- Inserting a row older than every row of a descending list puts it at
the end. -/
theorem insertDesc_of_older (m : MessageRow) (l : List MessageRow)
    (h : ∀ y ∈ l, m.created_at < y.created_at) :
    insertDesc m l = l ++ [m] := by
  induction l with
  | nil => rfl
  | cons x xs ih =>
    have hx := h x (List.mem_cons_self x xs)
    rw [insertDesc, if_neg (by omega)]
    rw [ih (fun y hy => h y (List.mem_cons_of_mem x hy))]
    rfl

/-- Sorting rows whose timestamps strictly increase by descending
`created_at` reverses them. -/
theorem sortDesc_of_increasing (l : List MessageRow)
    (h : List.Pairwise (fun a b => a.created_at < b.created_at) l) :
    sortByCreatedDesc l = l.reverse := by
  induction l with
  | nil => rfl
  | cons x xs ih =>
    rw [sortByCreatedDesc, ih (List.Pairwise.of_cons h)]
    rw [insertDesc_of_older x xs.reverse
      (fun y hy => (List.pairwise_cons.mp h).1 y (List.mem_reverse.mp hy))]
    rw [List.reverse_cons]

/-- C8: when the stored rows of a conversation carry strictly increasing
creation timestamps (append order), `_get_conversation_history` returns
the most recent `limit` of them (defaulting to
`MAX_CONVERSATION_HISTORY = 10`) in chronological, oldest-first order,
and never more than the window. -/
theorem history_chronological_bounded (table : List MessageRow) (cid : ℕ)
    (limit : Option ℕ)
    (hmono : List.Pairwise (fun a b => a.created_at < b.created_at)
      (table.filter (fun m => m.conversation_id == cid))) :
    getConversationHistory table cid limit =
      ((table.filter (fun m => m.conversation_id == cid)).drop
        ((table.filter (fun m => m.conversation_id == cid)).length -
          limit.getD MAX_CONVERSATION_HISTORY)).map toChatMessage ∧
    (getConversationHistory table cid limit).length ≤
      limit.getD MAX_CONVERSATION_HISTORY := by
  have hq : getConversationHistory table cid limit =
      ((table.filter (fun m => m.conversation_id == cid)).drop
        ((table.filter (fun m => m.conversation_id == cid)).length -
          limit.getD MAX_CONVERSATION_HISTORY)).map toChatMessage := by
    unfold getConversationHistory queryHistory
    rw [sortDesc_of_increasing _ hmono]
    simp only [List.take_reverse, List.reverse_reverse]
  refine ⟨hq, ?_⟩
  rw [hq, List.length_map, List.length_drop]
  omega

/-- A concrete four-row table: conversation 1 holds messages A, B, C in
insertion order, conversation 2 holds one unrelated message. -/
def sampleTable : List MessageRow :=
  [{ conversation_id := 1, role := "user", content := "A", created_at := 1 },
   { conversation_id := 1, role := "assistant", content := "B", created_at := 2 },
   { conversation_id := 2, role := "user", content := "other", created_at := 3 },
   { conversation_id := 1, role := "user", content := "C", created_at := 4 }]

theorem history_chronological_bounded_witness :
    getConversationHistory sampleTable 1 none =
      ((sampleTable.filter (fun m => m.conversation_id == 1)).drop
        ((sampleTable.filter (fun m => m.conversation_id == 1)).length -
          (none : Option ℕ).getD MAX_CONVERSATION_HISTORY)).map toChatMessage ∧
    (getConversationHistory sampleTable 1 none).length ≤
      (none : Option ℕ).getD MAX_CONVERSATION_HISTORY :=
  history_chronological_bounded sampleTable 1 none (by decide)
